import Mathlib

/-
Verification of the Quantus explainability-evaluation metrics
(Sufficiency, MaxSensitivity, RelativeRepresentationStability) against
their natural-language specification.

Numeric model: the Python code computes with IEEE-754 doubles; the
arithmetic performed by the metrics is exact rational arithmetic except
for the deliberately produced special values (the +inf divisor used by
Sufficiency and the NaN markers used by the robustness metrics), so
scalars are modelled as exact rationals and an explicit extended type
`EF` (finite rational, +infinity, -infinity, NaN) is used wherever the
code deliberately manufactures or propagates non-finite values.
-/

namespace Quantus

/-- Extended numeric value mirroring the IEEE-754 special values the code
relies on: a finite (rational) value, positive infinity, negative
infinity, or NaN. -/
inductive EF where
  | fin (q : ℚ)
  | inf
  | ninf
  | nan
deriving DecidableEq

/-- Division on extended values, following IEEE-754 semantics as numpy
implements them: finite / 0 gives a signed infinity (NaN for 0 / 0),
finite / infinity gives 0, NaN propagates, and infinity / infinity is
NaN. -/
def divE : EF → EF → EF
  | .nan, _ => .nan
  | _, .nan => .nan
  | .fin a, .fin b =>
      if b = 0 then (if a = 0 then .nan else if 0 < a then .inf else .ninf)
      else .fin (a / b)
  | .fin _, .inf => .fin 0
  | .fin _, .ninf => .fin 0
  | .inf, .fin b => if 0 ≤ b then .inf else .ninf
  | .ninf, .fin b => if 0 ≤ b then .ninf else .inf
  | .inf, .inf => .nan
  | .inf, .ninf => .nan
  | .ninf, .inf => .nan
  | .ninf, .ninf => .nan

/-- Pairwise maximum as computed by numpy's `np.max` reduction: NaN
propagates (acts as a top element), +infinity dominates every numeric
value, -infinity is the numeric bottom, and two finite values take the
larger. -/
def maxE : EF → EF → EF
  | .nan, _ => .nan
  | _, .nan => .nan
  | .inf, _ => .inf
  | _, .inf => .inf
  | .ninf, b => b
  | a, .ninf => a
  | .fin a, .fin b => .fin (max a b)

/-- Strict IEEE-754 comparison: any comparison against NaN is false,
-infinity is below every numeric value, +infinity above. A score
transition "never decreases" exactly when this comparison, applied to
the new score against the old one, is false. -/
def ltE : EF → EF → Bool
  | .nan, _ => false
  | _, .nan => false
  | .fin a, .fin b => a < b
  | .ninf, .fin _ => true
  | .fin _, .inf => true
  | .ninf, .inf => true
  | .inf, _ => false
  | _, .ninf => false

/-- Non-strict order for which `maxE` is the join; NaN sits at the top
(it absorbs `maxE`), matching NaN propagation in `np.max`. -/
def leE : EF → EF → Bool
  | _, .nan => true
  | .nan, _ => false
  | _, .inf => true
  | .inf, _ => false
  | .ninf, _ => true
  | _, .ninf => false
  | .fin a, .fin b => a ≤ b

/-- Reduction of a list of extended values as `np.max` performs it: NaN
propagates into the result. The empty list (on which numpy raises) is
mapped to NaN; every use below is guarded by a positive sample count. -/
def npmax : List EF → EF
  | [] => .nan
  | x :: xs => xs.foldl maxE x

/-- Reduction of a list of extended values as `np.nanmax` performs it:
NaN entries are dropped before the maximum is taken; an all-NaN list
yields NaN (numpy warns and returns NaN there). -/
def npnanmax (l : List EF) : EF :=
  npmax (l.filter (fun v => !(v == EF.nan)))

/-- Index of the first maximal element of a list, as computed by
`np.argmax` (ties broken towards the earliest index); 0 on the empty
list. Auxiliary accumulator form. -/
def argmaxAux : List ℚ → ℕ → ℕ → ℚ → ℕ
  | [], _, best, _ => best
  | q :: rest, cur, best, bestV =>
      if bestV < q then argmaxAux rest (cur + 1) cur q
      else argmaxAux rest (cur + 1) best bestV

/-- Index of the first maximal element of a list (`np.argmax`). -/
def argmaxIdx : List ℚ → ℕ
  | [] => 0
  | q :: rest => argmaxAux rest 1 0 q

section Sufficiency

variable {n : ℕ}

/-- The batch context consumed by `Sufficiency.evaluate_batch`, as
produced by `custom_batch_preprocess`: instance indices, the pairwise
similarity matrix over attributions, and the predicted class of each
instance. Matrices over a batch of `n` instances are functions
`Fin n → Fin n → ℚ`. -/
structure SuffBatch (n : ℕ) where
  i_batch : Fin n → ℕ
  a_sim_vector_batch : Fin n → Fin n → ℚ
  y_pred_classes : Fin n → ℕ

/-- The similarity matrix after the statement
`a_sim_vector_batch *= 1 - np.eye(batch_size)`: the diagonal is zeroed
by multiplying entry (i, j) with `1 - eye(i, j)`. -/
def simNoDiag (S : Fin n → Fin n → ℚ) : Fin n → Fin n → ℚ :=
  fun i j => S i j * (1 - if i = j then 1 else 0)

/-- Row sums `low_dist_freqs = a_sim_vector_batch.sum(-1)` of the
diagonal-zeroed similarity matrix. -/
def lowDistFreqs (S : Fin n → Fin n → ℚ) (i : Fin n) : ℚ :=
  ∑ j, simNoDiag S i j

/-- Numerator `(pred_classes_equality * a_sim_vector_batch).sum(-1)`:
`pred_classes_equality[i, j]` is the 0/1 indicator of
`y_pred_classes[j] == y_pred_classes[i]`. -/
def suffNumerator (y : Fin n → ℕ) (S : Fin n → Fin n → ℚ) (i : Fin n) : ℚ :=
  ∑ j, (if y j = y i then (1 : ℚ) else 0) * simNoDiag S i j

/-- Divisor `np.where(low_dist_freqs == 0, np.inf, low_dist_freqs)`: the
row sum, with +infinity substituted where the row sum is exactly 0. -/
def suffDivisor (S : Fin n → Fin n → ℚ) (i : Fin n) : EF :=
  if lowDistFreqs S i = 0 then EF.inf else EF.fin (lowDistFreqs S i)

/-- Shallow embedding of `Sufficiency.evaluate_batch`
(sufficiency.py lines 581-588). The first component is the returned
array of per-instance scores; the second component is the state of the
three batch-context arrays after the call (the in-place
`a_sim_vector_batch *= 1 - np.eye(batch_size)` is reflected there). -/
def Sufficiency.evaluate_batch (b : SuffBatch n) : (Fin n → EF) × SuffBatch n :=
  (fun i =>
      divE (.fin (suffNumerator b.y_pred_classes b.a_sim_vector_batch i))
        (suffDivisor b.a_sim_vector_batch i),
   { b with a_sim_vector_batch := simNoDiag b.a_sim_vector_batch })

/-- Shallow embedding of `BatchSufficiency.evaluate_batch`
(sufficiency.py lines 301-308); the method body is the same metric
logic as `Sufficiency.evaluate_batch`, transcribed separately so the
two public classes can be compared. -/
def BatchSufficiency.evaluate_batch (b : SuffBatch n) : (Fin n → EF) × SuffBatch n :=
  (fun i =>
      divE (.fin (suffNumerator b.y_pred_classes b.a_sim_vector_batch i))
        (suffDivisor b.a_sim_vector_batch i),
   { b with a_sim_vector_batch := simNoDiag b.a_sim_vector_batch })

/-- Shallow embedding of `Sufficiency.custom_batch_preprocess`
(sufficiency.py lines 532-551). The pairwise-distance computation
(`scipy.spatial.distance.cdist` with the configured `distance_func`
string) and the configured distance-matrix normalisation
(`self.normalise_func`, repository code outside this excerpt) are taken
as function parameters `distance_func` and `normalise_func`; the model
adapter's class scores (`model.predict`) are the parameter
`predictScores`, from which the predicted class is `np.argmax` along
axis 1. Attributions are modelled already flattened (one `List ℚ` per
instance), making `a_batch.reshape(a_batch.shape[0], -1)` the
identity. -/
def Sufficiency.custom_batch_preprocess (threshold : ℚ)
    (distance_func : List ℚ → List ℚ → ℚ)
    (normalise_func : (Fin n → Fin n → ℚ) → (Fin n → Fin n → ℚ))
    (predictScores : Fin n → List ℚ)
    (a_batch : Fin n → List ℚ) : SuffBatch n :=
  let dist_matrix0 : Fin n → Fin n → ℚ := fun i j => distance_func (a_batch i) (a_batch j)
  let dist_matrix := normalise_func dist_matrix0
  let a_sim_matrix : Fin n → Fin n → ℚ := fun i j =>
    if dist_matrix i j ≤ threshold then 1 else 0
  { i_batch := fun i => (i : ℕ),
    a_sim_vector_batch := a_sim_matrix,
    y_pred_classes := fun i => argmaxIdx (predictScores i) }

end Sufficiency

section RelativeRepresentationStability

variable {n : ℕ}

/-- Elementwise relative change `(a - b) / (a + (a == 0) * eps_min)`
used by `relative_representation_stability_objective` for both the
attribution and the representation deltas: the divisor is the original
value `a`, with `eps_min` substituted when `a` is exactly zero. -/
def relDiv (eps_min : ℚ) (a b : ℚ) : ℚ :=
  (a - b) / (a + (if a = 0 then 1 else 0) * eps_min)

/-- Elementwise relative change of a vector (`relDiv` zipped over the
coordinates). -/
def relChange (eps_min : ℚ) (u v : List ℚ) : List ℚ :=
  List.zipWith (relDiv eps_min) u v

/-- Shallow embedding of
`RelativeRepresentationStability.relative_representation_stability_objective`
(relative_representation_stability.py lines 262-281) for one instance
(one row of the batched arrays), in the 2-dimensional case
(`e_x.ndim == 2`, one feature vector per instance; the higher-rank
branches differ only in which nested norm reduces the numerator, not in
the guard logic this development is about). `np.linalg.norm` along the
last axis is the Euclidean norm, whose value is irrational in general;
it is taken as the function parameters `norm_e` (numerator norm) and
`norm_l` (denominator norm). Concrete witnesses below only ever apply
these norms to vectors with at most one nonzero coordinate, on which
every p-norm — the Euclidean one included — equals the absolute value
of that coordinate, so instantiating them with `l1norm` reproduces
numpy exactly there. The step
`denominator += (denominator == 0) * self._eps_min` adds `eps_min`
only when the computed norm is exactly zero. -/
def relative_representation_stability_objective (eps_min : ℚ)
    (norm_e norm_l : List ℚ → ℚ) (l_x l_xs e_x e_xs : List ℚ) : ℚ :=
  let nominator := norm_e (relChange eps_min e_x e_xs)
  let denominator0 := norm_l (relChange eps_min l_x l_xs)
  let denominator := denominator0 + (if denominator0 = 0 then 1 else 0) * eps_min
  nominator / denominator

/-- Objective as the specification words it: "compute objective =
norm(relative change in attribution) / max(norm(relative change in
representation), eps_min)". Stated only to be compared with the code's
`relative_representation_stability_objective`. -/
def rrsObjectiveSpecFormula (eps_min : ℚ)
    (norm_e norm_l : List ℚ → ℚ) (l_x l_xs e_x e_xs : List ℚ) : ℚ :=
  norm_e (relChange eps_min e_x e_xs) / max (norm_l (relChange eps_min l_x l_xs)) eps_min

/-- Sum of absolute values of the coordinates. On a vector with at most
one nonzero coordinate this coincides with `np.linalg.norm` (and with
every p-norm); used to instantiate the norm parameters in concrete
witnesses. -/
def l1norm (v : List ℚ) : ℚ :=
  (v.map (fun q => |q|)).sum

/-- Modelled from the spec: `make_changed_prediction_indices_func`
(quantus/helpers/perturbation_utils.py, not part of the excerpt). Per
the spec's changed-prediction detector contract: given the model's
class scores before and after perturbation, in mode (a)
(`return_nan_when_prediction_changes=True`) it returns the indices of
instances whose argmax class differs; in mode (b) detection is a no-op
returning the empty set. -/
def changed_prediction_indices (return_nan_when_prediction_changes : Bool)
    (origScores pertScores : Fin n → List ℚ) : Finset (Fin n) :=
  if return_nan_when_prediction_changes then
    Finset.univ.filter (fun i => argmaxIdx (pertScores i) ≠ argmaxIdx (origScores i))
  else ∅

/-- Per-sample data of one realization of the stochastic loop in
`RelativeRepresentationStability.evaluate_batch`: for each sample index
and instance, the hidden representation of the perturbed input
(`model.get_hidden_representations(x_perturbed, ...)`), the explanation
of the perturbed input (`self.explain_batch(model, x_perturbed,
y_batch)`), and the model's class scores on the perturbed input (used
by the changed-prediction detector). Fixing this data models fixing the
realization of the random perturbation process. -/
structure RRSRealization (n : ℕ) where
  l_xs : ℕ → Fin n → List ℚ
  e_xs : ℕ → Fin n → List ℚ
  pertScores : ℕ → Fin n → List ℚ

/-- One entry (sample `s`, instance `i`) of the `rrs_batch` array of
`RelativeRepresentationStability.evaluate_batch`
(relative_representation_stability.py lines 319-347) at the end of
iteration `s`: the objective value, overwritten with NaN when the
changed-prediction detector flags the instance. -/
def RelativeRepresentationStability.perSampleEntry (eps_min : ℚ)
    (norm_e norm_l : List ℚ → ℚ)
    (return_nan_when_prediction_changes : Bool)
    (l_x : Fin n → List ℚ) (a_batch : Fin n → List ℚ)
    (origScores : Fin n → List ℚ) (r : RRSRealization n) (s : ℕ) (i : Fin n) : EF :=
  if i ∈ changed_prediction_indices return_nan_when_prediction_changes origScores
      (r.pertScores s) then EF.nan
  else
    EF.fin (relative_representation_stability_objective eps_min norm_e norm_l
      (l_x i) (r.l_xs s i) (a_batch i) (r.e_xs s i))

/-- Final per-instance result of
`RelativeRepresentationStability.evaluate_batch` (line 350,
`np.max(rrs_batch, axis=0)`), before the optional aggregation. -/
def RelativeRepresentationStability.evaluate_batch (eps_min : ℚ)
    (norm_e norm_l : List ℚ → ℚ)
    (return_nan_when_prediction_changes : Bool) (nr_samples : ℕ)
    (l_x : Fin n → List ℚ) (a_batch : Fin n → List ℚ)
    (origScores : Fin n → List ℚ) (r : RRSRealization n) (i : Fin n) : EF :=
  npmax ((List.range nr_samples).map
    (fun s => RelativeRepresentationStability.perSampleEntry eps_min norm_e norm_l
      return_nan_when_prediction_changes l_x a_batch origScores r s i))

/-- The configuration stored by a successfully constructed
`RelativeRepresentationStability` metric (the fields of `__init__`
relevant to the verified claims). -/
structure RRSConfig where
  nr_samples : ℕ
  eps_min : ℚ
  layer_names : Option (List String)
  layer_indices : Option (List ℤ)
  return_nan_when_prediction_changes : Bool

/-- Shallow embedding of `RelativeRepresentationStability.__init__`
(relative_representation_stability.py lines 70-152, keeping the fields
the claims are about): construction raises
`ValueError("Must provide either layer_names OR layer_indices, not
both.")` when both layer selectors are given (lines 146-147), and
otherwise stores the configuration. -/
def RelativeRepresentationStability.init (nr_samples : ℕ) (eps_min : ℚ)
    (layer_names : Option (List String)) (layer_indices : Option (List ℤ))
    (return_nan_when_prediction_changes : Bool) : Except String RRSConfig :=
  if layer_names.isSome ∧ layer_indices.isSome then
    Except.error "Must provide either layer_names OR layer_indices, not both."
  else
    Except.ok
      { nr_samples := nr_samples,
        eps_min := eps_min,
        layer_names := layer_names,
        layer_indices := layer_indices,
        return_nan_when_prediction_changes := return_nan_when_prediction_changes }

end RelativeRepresentationStability

section MaxSensitivity

variable {n : ℕ}

/-- Per-sample data of one realization of the stochastic loop in
`MaxSensitivity.evaluate_batch`: for each sample index and instance,
the explanation recomputed on the perturbed input
(`self.explain_batch(model, x_perturbed, y_batch)`, flattened) and the
model's class scores on the perturbed input (consumed by the
changed-prediction detector). Fixing this data models fixing the
realization of the random perturbation process. -/
structure MSRealization (n : ℕ) where
  a_perturbed : ℕ → Fin n → List ℚ
  pertScores : ℕ → Fin n → List ℚ

/-- One entry (instance `i`, sample `s`) of the `similarities` array of
`MaxSensitivity.evaluate_batch` (max_sensitivity.py lines 325-351)
after iteration `s`: `numerator / denominator` with
`numerator = norm_numerator(similarity_func(a, a_perturbed))` and
`denominator = norm_denominator(a)`, the division performed on the
values exactly as computed (IEEE semantics, no guard), then overwritten
with NaN where the changed-prediction detector flagged the instance.
The configured `similarity_func`, `norm_numerator` and
`norm_denominator` (defaults `difference` and `fro_norm`, repository
code outside this excerpt) are function parameters. -/
def MaxSensitivity.perSampleValue
    (similarity_func : List ℚ → List ℚ → List ℚ)
    (norm_numerator norm_denominator : List ℚ → ℚ)
    (return_nan_when_prediction_changes : Bool)
    (a_batch : Fin n → List ℚ) (origScores : Fin n → List ℚ)
    (r : MSRealization n) (s : ℕ) (i : Fin n) : EF :=
  if i ∈ changed_prediction_indices return_nan_when_prediction_changes origScores
      (r.pertScores s) then EF.nan
  else
    divE (.fin (norm_numerator (similarity_func (a_batch i) (r.a_perturbed s i))))
      (.fin (norm_denominator (a_batch i)))

/-- Final per-instance result of `MaxSensitivity.evaluate_batch` with
`nr_samples` samples (line 353): `self.max_func(similarities, axis=1)`,
where `max_func` is `np.max` when `return_nan_when_prediction_changes`
is set and `np.nanmax` otherwise (max_sensitivity.py line 168). -/
def MaxSensitivity.evaluate_batch
    (similarity_func : List ℚ → List ℚ → List ℚ)
    (norm_numerator norm_denominator : List ℚ → ℚ)
    (return_nan_when_prediction_changes : Bool) (nr_samples : ℕ)
    (a_batch : Fin n → List ℚ) (origScores : Fin n → List ℚ)
    (r : MSRealization n) (i : Fin n) : EF :=
  (if return_nan_when_prediction_changes then npmax else npnanmax)
    ((List.range nr_samples).map
      (fun s => MaxSensitivity.perSampleValue similarity_func norm_numerator
        norm_denominator return_nan_when_prediction_changes a_batch origScores r s i))

end MaxSensitivity

/-- Concrete batch falsifying the claim that `Sufficiency.evaluate_batch`
leaves the batch-context arrays unchanged: a single instance whose
similarity matrix carries a 1 on the diagonal. -/
def suffMutationInput : SuffBatch 1 :=
  { i_batch := fun _ => 0,
    a_sim_vector_batch := fun _ _ => 1,
    y_pred_classes := fun _ => 0 }

/-- Concrete batch of two instances for exercising the Sufficiency score
bounds: instance 0 is connected to instance 1, instance 1 is connected
to nobody. -/
def suffBoundsInput : SuffBatch 2 :=
  { i_batch := fun i => (i : ℕ),
    a_sim_vector_batch := fun i j => if i = 0 ∧ j = 1 then 1 else 0,
    y_pred_classes := fun _ => 0 }

section SufficiencyTheorems

variable {n : ℕ}

/-- Pointwise description of the diagonal-zeroing multiplication. -/
lemma simNoDiag_eq (S : Fin n → Fin n → ℚ) (i j : Fin n) :
    simNoDiag S i j = if i = j then 0 else S i j := by
  by_cases h : i = j <;> simp [simNoDiag, h]

/-- With 0/1 similarity entries, the diagonal-zeroed matrix is
nonnegative. -/
lemma simNoDiag_nonneg {S : Fin n → Fin n → ℚ}
    (h01 : ∀ i j, S i j = 0 ∨ S i j = 1) (i j : Fin n) : 0 ≤ simNoDiag S i j := by
  rw [simNoDiag_eq]
  split
  · exact le_refl 0
  · rcases h01 i j with h | h <;> simp [h]

/-- The numerator of a Sufficiency score is nonnegative when the
similarity entries are 0/1. -/
lemma suffNumerator_nonneg {S : Fin n → Fin n → ℚ} (y : Fin n → ℕ)
    (h01 : ∀ i j, S i j = 0 ∨ S i j = 1) (i : Fin n) : 0 ≤ suffNumerator y S i := by
  refine Finset.sum_nonneg fun j _ => mul_nonneg ?_ (simNoDiag_nonneg h01 i j)
  split <;> norm_num

/-- The numerator of a Sufficiency score never exceeds the row sum. -/
lemma suffNumerator_le_lowDistFreqs {S : Fin n → Fin n → ℚ} (y : Fin n → ℕ)
    (h01 : ∀ i j, S i j = 0 ∨ S i j = 1) (i : Fin n) :
    suffNumerator y S i ≤ lowDistFreqs S i := by
  refine Finset.sum_le_sum fun j _ => ?_
  have hs := simNoDiag_nonneg h01 i j
  split
  · rw [one_mul]
  · rw [zero_mul]; exact hs

/-- Division of two finite values with a nonzero divisor is ordinary
division. -/
lemma divE_fin_fin (a b : ℚ) (hb : b ≠ 0) : divE (.fin a) (.fin b) = .fin (a / b) := by
  simp [divE, hb]

/-- A finite value divided by +infinity is 0. -/
lemma divE_fin_inf (a : ℚ) : divE (.fin a) .inf = .fin 0 := rfl

/-- C1: for a similarity matrix with 0/1 entries, an instance with at
least one off-diagonal neighbour receives a finite Sufficiency score in
[0, 1]; an instance with no off-diagonal neighbour has the +infinity
divisor substituted for its zero row sum, and its score is 0 (no
division by zero, no exception). -/
theorem sufficiency_score_bounds (b : SuffBatch n)
    (h01 : ∀ i j, b.a_sim_vector_batch i j = 0 ∨ b.a_sim_vector_batch i j = 1)
    (i : Fin n) :
    ((∃ j, j ≠ i ∧ b.a_sim_vector_batch i j = 1) →
      ∃ q, (Sufficiency.evaluate_batch b).1 i = EF.fin q ∧ 0 ≤ q ∧ q ≤ 1)
    ∧ ((∀ j, j ≠ i → b.a_sim_vector_batch i j = 0) →
      suffDivisor b.a_sim_vector_batch i = EF.inf
      ∧ (Sufficiency.evaluate_batch b).1 i = EF.fin 0) := by
  constructor
  · rintro ⟨j0, hj0, hS⟩
    have hone : simNoDiag b.a_sim_vector_batch i j0 = 1 := by
      rw [simNoDiag_eq, if_neg (fun h => hj0 h.symm), hS]
    have hlow1 : (1 : ℚ) ≤ lowDistFreqs b.a_sim_vector_batch i := by
      calc (1 : ℚ) = simNoDiag b.a_sim_vector_batch i j0 := hone.symm
        _ ≤ ∑ j, simNoDiag b.a_sim_vector_batch i j :=
            Finset.single_le_sum (fun j _ => simNoDiag_nonneg h01 i j) (Finset.mem_univ j0)
    have hpos : 0 < lowDistFreqs b.a_sim_vector_batch i := lt_of_lt_of_le one_pos hlow1
    refine ⟨suffNumerator b.y_pred_classes b.a_sim_vector_batch i /
      lowDistFreqs b.a_sim_vector_batch i, ?_, ?_, ?_⟩
    · show divE _ _ = _
      rw [suffDivisor, if_neg hpos.ne', divE_fin_fin _ _ hpos.ne']
    · exact div_nonneg (suffNumerator_nonneg b.y_pred_classes h01 i) hpos.le
    · exact (div_le_one hpos).mpr (suffNumerator_le_lowDistFreqs b.y_pred_classes h01 i)
  · intro hiso
    have hzero : ∀ j, simNoDiag b.a_sim_vector_batch i j = 0 := by
      intro j
      rw [simNoDiag_eq]
      by_cases h : i = j
      · rw [if_pos h]
      · rw [if_neg h]; exact hiso j (fun hj => h hj.symm)
    have hlow : lowDistFreqs b.a_sim_vector_batch i = 0 :=
      Finset.sum_eq_zero (fun j _ => hzero j)
    have hdiv : suffDivisor b.a_sim_vector_batch i = EF.inf := by
      rw [suffDivisor, if_pos hlow]
    refine ⟨hdiv, ?_⟩
    show divE _ _ = _
    rw [hdiv, divE_fin_inf]

/-- C1 witness: in the concrete two-instance batch `suffBoundsInput`,
instance 0 (connected to instance 1) receives a score in [0, 1] and
instance 1 (connected to nobody) receives the +infinity divisor and
score 0. -/
theorem sufficiency_score_bounds_witness :
    (∃ q, (Sufficiency.evaluate_batch suffBoundsInput).1 0 = EF.fin q ∧ 0 ≤ q ∧ q ≤ 1)
    ∧ (suffDivisor suffBoundsInput.a_sim_vector_batch 1 = EF.inf
        ∧ (Sufficiency.evaluate_batch suffBoundsInput).1 1 = EF.fin 0) := by
  have h01 : ∀ i j, suffBoundsInput.a_sim_vector_batch i j = 0 ∨
      suffBoundsInput.a_sim_vector_batch i j = 1 := by
    intro i j
    fin_cases i <;> fin_cases j <;> norm_num +decide [suffBoundsInput]
  constructor
  · exact (sufficiency_score_bounds suffBoundsInput h01 0).1
      ⟨1, by norm_num +decide, by norm_num +decide [suffBoundsInput]⟩
  · refine (sufficiency_score_bounds suffBoundsInput h01 1).2 ?_
    intro j hj
    fin_cases j
    · norm_num +decide [suffBoundsInput]
    · exact absurd rfl hj

/-- C6: both the numerator and the denominator row sum of a Sufficiency
score range only over indices other than the instance itself: the
diagonal entry of the similarity matrix contributes to neither, and the
score is the guarded quotient of the two off-diagonal sums. -/
theorem sufficiency_self_exclusion (b : SuffBatch n) (i : Fin n) :
    suffNumerator b.y_pred_classes b.a_sim_vector_batch i
      = ∑ j ∈ Finset.univ.erase i,
          (if b.y_pred_classes j = b.y_pred_classes i then (1 : ℚ) else 0) *
            b.a_sim_vector_batch i j
    ∧ lowDistFreqs b.a_sim_vector_batch i
      = ∑ j ∈ Finset.univ.erase i, b.a_sim_vector_batch i j
    ∧ (Sufficiency.evaluate_batch b).1 i
      = divE
          (.fin (∑ j ∈ Finset.univ.erase i,
            (if b.y_pred_classes j = b.y_pred_classes i then (1 : ℚ) else 0) *
              b.a_sim_vector_batch i j))
          (if (∑ j ∈ Finset.univ.erase i, b.a_sim_vector_batch i j) = 0 then EF.inf
           else EF.fin (∑ j ∈ Finset.univ.erase i, b.a_sim_vector_batch i j)) := by
  have hnum : suffNumerator b.y_pred_classes b.a_sim_vector_batch i
      = ∑ j ∈ Finset.univ.erase i,
          (if b.y_pred_classes j = b.y_pred_classes i then (1 : ℚ) else 0) *
            b.a_sim_vector_batch i j := by
    rw [suffNumerator,
      ← Finset.sum_erase_add Finset.univ _ (Finset.mem_univ i)]
    have hdiag : (if b.y_pred_classes i = b.y_pred_classes i then (1 : ℚ) else 0) *
        simNoDiag b.a_sim_vector_batch i i = 0 := by
      rw [simNoDiag_eq]; simp
    rw [hdiag, add_zero]
    refine Finset.sum_congr rfl fun j hj => ?_
    rw [simNoDiag_eq,
      if_neg (show ¬i = j from fun h => (Finset.mem_erase.mp hj).1 h.symm)]
  have hlow : lowDistFreqs b.a_sim_vector_batch i
      = ∑ j ∈ Finset.univ.erase i, b.a_sim_vector_batch i j := by
    rw [lowDistFreqs,
      ← Finset.sum_erase_add Finset.univ _ (Finset.mem_univ i)]
    have hdiag : simNoDiag b.a_sim_vector_batch i i = 0 := by
      rw [simNoDiag_eq]; simp
    rw [hdiag, add_zero]
    refine Finset.sum_congr rfl fun j hj => ?_
    rw [simNoDiag_eq, if_neg (fun h => (Finset.mem_erase.mp hj).1 h.symm)]
  refine ⟨hnum, hlow, ?_⟩
  show divE _ _ = _
  rw [suffDivisor, hnum, hlow]

/-- C10: the two publicly exposed classes compute identical per-batch
results: `BatchSufficiency.evaluate_batch` and
`Sufficiency.evaluate_batch` agree on every batch context (scores and
final array state alike). -/
theorem batch_sufficiency_evaluate_batch_eq (b : SuffBatch n) :
    BatchSufficiency.evaluate_batch b = Sufficiency.evaluate_batch b := rfl

/-- C3 counterexample: `Sufficiency.evaluate_batch` does not leave the
batch-context arrays unchanged: on `suffMutationInput` (similarity
matrix with a 1 on the diagonal) the in-place
`a_sim_vector_batch *= 1 - np.eye(batch_size)` changes the
`a_sim_vector_batch` array. -/
theorem sufficiency_mutates_a_sim_vector :
    (Sufficiency.evaluate_batch suffMutationInput).2.a_sim_vector_batch
      ≠ suffMutationInput.a_sim_vector_batch := by
  intro h
  have h0 := congrFun (congrFun h 0) 0
  norm_num [Sufficiency.evaluate_batch, simNoDiag, suffMutationInput] at h0

/-- C3 (amended): `Sufficiency.evaluate_batch` leaves `i_batch` and
`y_pred_classes` unchanged, but mutates `a_sim_vector_batch` in place,
replacing it with its diagonal-zeroed copy: off-diagonal entries are
preserved and diagonal entries become 0 (so a matrix whose diagonal is
already zero is left unchanged). -/
theorem sufficiency_evaluate_batch_array_state (b : SuffBatch n) :
    (Sufficiency.evaluate_batch b).2.i_batch = b.i_batch
    ∧ (Sufficiency.evaluate_batch b).2.y_pred_classes = b.y_pred_classes
    ∧ (Sufficiency.evaluate_batch b).2.a_sim_vector_batch
        = fun i j => if i = j then 0 else b.a_sim_vector_batch i j := by
  refine ⟨rfl, rfl, ?_⟩
  funext i j
  exact simNoDiag_eq b.a_sim_vector_batch i j

/-- C5: end-to-end Sufficiency scenario. For a batch of 4 attribution
vectors at pairwise distance 0 (as identical vectors are), with a
normalisation fixing the zero distance matrix, a nonnegative threshold
and predicted classes [0, 0, 1, 1], every instance scores exactly 1/3:
it is connected to the 3 other instances, exactly one of which shares
its predicted class. -/
theorem sufficiency_identical_attributions_scenario
    (threshold : ℚ) (distance_func : List ℚ → List ℚ → ℚ)
    (normalise_func : (Fin 4 → Fin 4 → ℚ) → (Fin 4 → Fin 4 → ℚ))
    (predictScores : Fin 4 → List ℚ) (a_batch : Fin 4 → List ℚ)
    (hthr : 0 ≤ threshold)
    (hdist : ∀ i j, distance_func (a_batch i) (a_batch j) = 0)
    (hnorm : normalise_func (fun _ _ => 0) = fun _ _ => 0)
    (hpred : ∀ i, argmaxIdx (predictScores i) = ![0, 0, 1, 1] i) :
    ∀ i, (Sufficiency.evaluate_batch (Sufficiency.custom_batch_preprocess threshold
      distance_func normalise_func predictScores a_batch)).1 i = EF.fin (1 / 3) := by
  have hb : Sufficiency.custom_batch_preprocess threshold distance_func normalise_func
      predictScores a_batch
      = { i_batch := fun i => (i : ℕ),
          a_sim_vector_batch := fun _ _ => 1,
          y_pred_classes := fun i => ![0, 0, 1, 1] i } := by
    have h0 : (fun i j => distance_func (a_batch i) (a_batch j)) = fun _ _ => (0 : ℚ) := by
      funext i j; exact hdist i j
    simp only [Sufficiency.custom_batch_preprocess, h0, hnorm]
    congr 1
    · funext i j
      rw [if_pos hthr]
    · funext i
      exact hpred i
  rw [hb]
  intro i
  fin_cases i <;>
    norm_num +decide [Sufficiency.evaluate_batch, suffNumerator, suffDivisor,
      lowDistFreqs, simNoDiag, Fin.sum_univ_four, divE]

/-- C5 witness: the scenario realized concretely with four copies of
the attribution vector [1, 2], the taxicab distance, the identity
normalisation, threshold 3/5 and class scores giving predictions
[0, 0, 1, 1]; each instance scores 1/3. -/
theorem sufficiency_identical_attributions_scenario_witness :
    (Sufficiency.evaluate_batch (Sufficiency.custom_batch_preprocess (3 / 5)
      (fun u v => l1norm (List.zipWith (fun x y => x - y) u v))
      id
      (fun i => ![[(1 : ℚ), 0], [1, 0], [0, 1], [0, 1]] i)
      (fun _ => [1, 2]))).1 0 = EF.fin (1 / 3)
    ∧ (Sufficiency.evaluate_batch (Sufficiency.custom_batch_preprocess (3 / 5)
      (fun u v => l1norm (List.zipWith (fun x y => x - y) u v))
      id
      (fun i => ![[(1 : ℚ), 0], [1, 0], [0, 1], [0, 1]] i)
      (fun _ => [1, 2]))).1 1 = EF.fin (1 / 3)
    ∧ (Sufficiency.evaluate_batch (Sufficiency.custom_batch_preprocess (3 / 5)
      (fun u v => l1norm (List.zipWith (fun x y => x - y) u v))
      id
      (fun i => ![[(1 : ℚ), 0], [1, 0], [0, 1], [0, 1]] i)
      (fun _ => [1, 2]))).1 2 = EF.fin (1 / 3)
    ∧ (Sufficiency.evaluate_batch (Sufficiency.custom_batch_preprocess (3 / 5)
      (fun u v => l1norm (List.zipWith (fun x y => x - y) u v))
      id
      (fun i => ![[(1 : ℚ), 0], [1, 0], [0, 1], [0, 1]] i)
      (fun _ => [1, 2]))).1 3 = EF.fin (1 / 3) := by
  have h := sufficiency_identical_attributions_scenario (3 / 5)
    (fun u v => l1norm (List.zipWith (fun x y => x - y) u v))
    id
    (fun i => ![[(1 : ℚ), 0], [1, 0], [0, 1], [0, 1]] i)
    (fun _ => [1, 2])
    (by norm_num)
    (by intro i j; norm_num [l1norm, List.zipWith])
    rfl
    (by
      intro i
      fin_cases i
      · show argmaxIdx [(1 : ℚ), 0] = 0
        norm_num [argmaxIdx, argmaxAux]
      · show argmaxIdx [(1 : ℚ), 0] = 0
        norm_num [argmaxIdx, argmaxAux]
      · show argmaxIdx [(0 : ℚ), 1] = 1
        norm_num [argmaxIdx, argmaxAux]
      · show argmaxIdx [(0 : ℚ), 1] = 1
        norm_num [argmaxIdx, argmaxAux])
  exact ⟨h 0, h 1, h 2, h 3⟩

end SufficiencyTheorems

section RRSTheorems

/-- C2 counterexample: with `eps_min = 1e-6` and a representation delta
whose relative-change norm is `5e-7` (strictly between 0 and
`eps_min`), the objective computed by the code divides by `5e-7`
itself, so it differs from the specification's
`max(norm, eps_min)` formula. The vectors involved have a single
coordinate, on which `l1norm` coincides with `np.linalg.norm`. -/
theorem rrs_objective_differs_from_eps_floor :
    relative_representation_stability_objective (1 / 1000000) l1norm l1norm
        [1] [1999999 / 2000000] [1] [0]
      ≠ rrsObjectiveSpecFormula (1 / 1000000) l1norm l1norm
        [1] [1999999 / 2000000] [1] [0] := by
  have hmax : max ((1 : ℚ) / 2000000) (1 / 1000000) = 1 / 1000000 := by
    rw [max_eq_right]; norm_num
  have habs : |(1 : ℚ) / 2000000| = 1 / 2000000 := abs_of_pos (by norm_num)
  norm_num [relative_representation_stability_objective, rrsObjectiveSpecFormula,
    relChange, relDiv, l1norm, List.zipWith, hmax, habs]

/-- C2 (amended): the objective equals
norm(relative change in attribution) divided by d, where d is
norm(relative change in representation) whenever that norm is nonzero —
even when it is a small positive value below `eps_min` — and d is
`eps_min` only when the norm is exactly zero. -/
theorem rrs_objective_zero_guard_exact (eps_min : ℚ) (norm_e norm_l : List ℚ → ℚ)
    (l_x l_xs e_x e_xs : List ℚ) :
    relative_representation_stability_objective eps_min norm_e norm_l l_x l_xs e_x e_xs
      = norm_e (relChange eps_min e_x e_xs) /
          (if norm_l (relChange eps_min l_x l_xs) = 0 then eps_min
           else norm_l (relChange eps_min l_x l_xs)) := by
  by_cases h : norm_l (relChange eps_min l_x l_xs) = 0 <;>
    simp [relative_representation_stability_objective, h]

/-- C9: constructing a RelativeRepresentationStability metric with both
`layer_names` and `layer_indices` set raises the fatal configuration
error during `__init__` (so before any evaluation call can happen),
while providing only one of the two selectors, or neither, constructs
the metric successfully. -/
theorem rrs_init_layer_selector_validation (nr_samples : ℕ) (eps_min : ℚ)
    (names : List String) (indices : List ℤ)
    (return_nan_when_prediction_changes : Bool) :
    (∃ e, RelativeRepresentationStability.init nr_samples eps_min (some names)
        (some indices) return_nan_when_prediction_changes = Except.error e)
    ∧ (∃ c, RelativeRepresentationStability.init nr_samples eps_min (some names)
        none return_nan_when_prediction_changes = Except.ok c)
    ∧ (∃ c, RelativeRepresentationStability.init nr_samples eps_min none
        (some indices) return_nan_when_prediction_changes = Except.ok c)
    ∧ (∃ c, RelativeRepresentationStability.init nr_samples eps_min none
        none return_nan_when_prediction_changes = Except.ok c) := by
  exact ⟨⟨_, rfl⟩, ⟨_, rfl⟩, ⟨_, rfl⟩, ⟨_, rfl⟩⟩

end RRSTheorems

section OrderLemmas

/-- NaN on the left absorbs the `np.max` pairwise maximum. -/
lemma maxE_nan_left (x : EF) : maxE .nan x = .nan := by
  cases x <;> rfl

/-- The `np.max` pairwise maximum never strictly drops below its left
argument (in the IEEE strict order `ltE`): its result is `leE`-above
the left argument. -/
lemma leE_maxE_left (a b : EF) : leE a (maxE a b) = true := by
  cases a <;> cases b <;> simp [leE, maxE, le_max_left]

/-- The order `leE` is reflexive. -/
lemma leE_refl (a : EF) : leE a a = true := by
  cases a <;> simp [leE]

/-- The order `leE` is transitive. -/
lemma leE_trans {a b c : EF} (h1 : leE a b = true) (h2 : leE b c = true) :
    leE a c = true := by
  cases a <;> cases b <;> cases c <;> simp_all [leE]
  exact le_trans h1 h2

/-- Whatever is `leE`-above a value is never strictly below it in the
IEEE comparison `ltE`. -/
lemma ltE_eq_false_of_leE {a b : EF} (h : leE a b = true) : ltE b a = false := by
  cases a <;> cases b <;> simp_all [leE, ltE]

/-- Folding further `np.max` steps from a starting accumulator keeps the
result `leE`-above the accumulator. -/
lemma leE_foldl_maxE (l : List EF) (a : EF) : leE a (l.foldl maxE a) = true := by
  induction l generalizing a with
  | nil => exact leE_refl a
  | cons x xs ih => exact leE_trans (leE_maxE_left a x) (ih (maxE a x))

/-- A fold of `np.max` steps is never strictly below its starting
accumulator. -/
lemma ltE_foldl_maxE_eq_false (l : List EF) (a : EF) :
    ltE (l.foldl maxE a) a = false :=
  ltE_eq_false_of_leE (leE_foldl_maxE l a)

/-- Nothing is strictly below NaN in the IEEE comparison. -/
lemma ltE_nan_right (z : EF) : ltE z .nan = false := by
  cases z <;> rfl

/-- Appending further samples never makes `np.max` strictly smaller in
the IEEE comparison. -/
lemma npmax_append_ltE_eq_false (l1 l2 : List EF) :
    ltE (npmax (l1 ++ l2)) (npmax l1) = false := by
  cases l1 with
  | nil => exact ltE_nan_right _
  | cons x xs =>
      show ltE ((xs ++ l2).foldl maxE x) (xs.foldl maxE x) = false
      rw [List.foldl_append]
      exact ltE_foldl_maxE_eq_false l2 (xs.foldl maxE x)

/-- Appending further samples never makes `np.nanmax` strictly smaller
in the IEEE comparison. -/
lemma npnanmax_append_ltE_eq_false (l1 l2 : List EF) :
    ltE (npnanmax (l1 ++ l2)) (npnanmax l1) = false := by
  rw [npnanmax, npnanmax, List.filter_append]
  exact npmax_append_ltE_eq_false _ _

end OrderLemmas

section MaxSensitivityTheorems

variable {n : ℕ}

/-- C7: for every instance and every fixed realization of the random
perturbation process, raising `nr_samples` from N to N + k never makes
the max-based Max-Sensitivity score smaller: the new score never
compares strictly below the old one (IEEE comparison, under which a NaN
result is not a decrease), and whenever both scores are finite the new
one is at least the old one. This holds in both masking modes (`np.max`
as well as `np.nanmax` reduction). -/
theorem max_sensitivity_monotone_in_nr_samples
    (similarity_func : List ℚ → List ℚ → List ℚ)
    (norm_numerator norm_denominator : List ℚ → ℚ)
    (return_nan_when_prediction_changes : Bool)
    (a_batch origScores : Fin n → List ℚ) (r : MSRealization n)
    (N k : ℕ) (_hN : 0 < N) (i : Fin n) :
    ltE
      (MaxSensitivity.evaluate_batch similarity_func norm_numerator norm_denominator
        return_nan_when_prediction_changes (N + k) a_batch origScores r i)
      (MaxSensitivity.evaluate_batch similarity_func norm_numerator norm_denominator
        return_nan_when_prediction_changes N a_batch origScores r i) = false
    ∧ (∀ v w,
        MaxSensitivity.evaluate_batch similarity_func norm_numerator norm_denominator
          return_nan_when_prediction_changes N a_batch origScores r i = EF.fin v →
        MaxSensitivity.evaluate_batch similarity_func norm_numerator norm_denominator
          return_nan_when_prediction_changes (N + k) a_batch origScores r i = EF.fin w →
        v ≤ w) := by
  have hsplit : (List.range (N + k)).map
        (fun s => MaxSensitivity.perSampleValue similarity_func norm_numerator
          norm_denominator return_nan_when_prediction_changes a_batch origScores r s i)
      = (List.range N).map
          (fun s => MaxSensitivity.perSampleValue similarity_func norm_numerator
            norm_denominator return_nan_when_prediction_changes a_batch origScores r s i)
        ++ ((List.range k).map (N + ·)).map
          (fun s => MaxSensitivity.perSampleValue similarity_func norm_numerator
            norm_denominator return_nan_when_prediction_changes a_batch origScores r s i) := by
    rw [List.range_add, List.map_append]
  have hlt : ltE
      (MaxSensitivity.evaluate_batch similarity_func norm_numerator norm_denominator
        return_nan_when_prediction_changes (N + k) a_batch origScores r i)
      (MaxSensitivity.evaluate_batch similarity_func norm_numerator norm_denominator
        return_nan_when_prediction_changes N a_batch origScores r i) = false := by
    rw [MaxSensitivity.evaluate_batch, MaxSensitivity.evaluate_batch, hsplit]
    cases return_nan_when_prediction_changes
    · simp only [Bool.false_eq_true, if_false]
      exact npnanmax_append_ltE_eq_false _ _
    · simp only [if_true]
      exact npmax_append_ltE_eq_false _ _
  refine ⟨hlt, fun v w hv hw => ?_⟩
  rw [hv, hw] at hlt
  have : ¬ w < v := by simpa [ltE] using hlt
  exact le_of_not_lt this

/-- C7 witness: a concrete one-instance realization (identical
perturbed explanation on every sample) with N = 1 and k = 1; the
two-sample score does not compare below the one-sample score. -/
theorem max_sensitivity_monotone_witness :
    0 < 1
    ∧ ltE
        (MaxSensitivity.evaluate_batch
          (fun u v => List.zipWith (fun x y => x - y) u v) l1norm l1norm
          false (1 + 1) (fun _ : Fin 1 => [1]) (fun _ => [1])
          ⟨fun _ _ => [2], fun _ _ => [1]⟩ 0)
        (MaxSensitivity.evaluate_batch
          (fun u v => List.zipWith (fun x y => x - y) u v) l1norm l1norm
          false 1 (fun _ : Fin 1 => [1]) (fun _ => [1])
          ⟨fun _ _ => [2], fun _ _ => [1]⟩ 0) = false :=
  ⟨Nat.one_pos,
    (max_sensitivity_monotone_in_nr_samples
      (fun u v => List.zipWith (fun x y => x - y) u v) l1norm l1norm
      false (fun _ : Fin 1 => [1]) (fun _ => [1])
      ⟨fun _ _ => [2], fun _ _ => [1]⟩ 1 1 Nat.one_pos 0).1⟩

/-- C8: Max-Sensitivity applies no guard to its denominator. For an
instance not flagged by the changed-prediction detector, the per-sample
value is the raw IEEE division of
`norm_numerator(similarity_func(a, a_perturbed))` by
`norm_denominator(a)` exactly as computed; in particular, when the
denominator is 0 the result is the IEEE division-by-zero outcome
(NaN for a zero numerator, a signed infinity otherwise) — no +infinity
divisor substitution and no eps floor is applied, unlike Sufficiency
and RelativeRepresentationStability. -/
theorem max_sensitivity_no_denominator_guard
    (similarity_func : List ℚ → List ℚ → List ℚ)
    (norm_numerator norm_denominator : List ℚ → ℚ)
    (return_nan_when_prediction_changes : Bool)
    (a_batch origScores : Fin n → List ℚ) (r : MSRealization n) (s : ℕ) (i : Fin n)
    (hok : i ∉ changed_prediction_indices return_nan_when_prediction_changes origScores
      (r.pertScores s)) :
    MaxSensitivity.perSampleValue similarity_func norm_numerator norm_denominator
        return_nan_when_prediction_changes a_batch origScores r s i
      = divE (.fin (norm_numerator (similarity_func (a_batch i) (r.a_perturbed s i))))
          (.fin (norm_denominator (a_batch i)))
    ∧ (norm_denominator (a_batch i) = 0 →
        MaxSensitivity.perSampleValue similarity_func norm_numerator norm_denominator
            return_nan_when_prediction_changes a_batch origScores r s i
          = (if norm_numerator (similarity_func (a_batch i) (r.a_perturbed s i)) = 0
             then EF.nan
             else if 0 < norm_numerator (similarity_func (a_batch i) (r.a_perturbed s i))
             then EF.inf else EF.ninf)) := by
  have h1 : MaxSensitivity.perSampleValue similarity_func norm_numerator norm_denominator
      return_nan_when_prediction_changes a_batch origScores r s i
      = divE (.fin (norm_numerator (similarity_func (a_batch i) (r.a_perturbed s i))))
          (.fin (norm_denominator (a_batch i))) := by
    rw [MaxSensitivity.perSampleValue, if_neg hok]
  refine ⟨h1, fun hden => ?_⟩
  rw [h1, hden]
  simp [divE]

/-- C8 witness: a concrete instance with attribution [0], whose
denominator norm is 0, and a perturbed explanation [1] giving numerator
norm 1: the per-sample value is the raw IEEE quotient +infinity, not a
guarded finite value. -/
theorem max_sensitivity_no_denominator_guard_witness :
    l1norm [(0 : ℚ)] = 0
    ∧ MaxSensitivity.perSampleValue (fun u v => List.zipWith (fun x y => x - y) u v)
        l1norm l1norm false (fun _ : Fin 1 => [(0 : ℚ)]) (fun _ => [1])
        ⟨fun _ _ => [1], fun _ _ => [1]⟩ 0 0 = EF.inf := by
  have h := max_sensitivity_no_denominator_guard
    (fun u v => List.zipWith (fun x y => x - y) u v) l1norm l1norm false
    (fun _ : Fin 1 => [(0 : ℚ)]) (fun _ => [1]) ⟨fun _ _ => [1], fun _ _ => [1]⟩ 0 0
    (by simp [changed_prediction_indices])
  have hden : l1norm [(0 : ℚ)] = 0 := by norm_num [l1norm]
  refine ⟨hden, ?_⟩
  rw [h.2 hden]
  norm_num [l1norm, List.zipWith]

/-- C4: for MaxSensitivity and RelativeRepresentationStability alike,
an instance whose perturbed prediction class differs from the original
one at sample s has its per-sample value set to NaN when
changed-prediction masking is enabled
(`return_nan_when_prediction_changes=True`), and receives the
ordinarily computed value for that sample when masking is disabled. -/
theorem changed_prediction_masking
    (similarity_func : List ℚ → List ℚ → List ℚ)
    (norm_numerator norm_denominator : List ℚ → ℚ)
    (a_batch origScoresMS : Fin n → List ℚ) (rMS : MSRealization n)
    (eps_min : ℚ) (norm_e norm_l : List ℚ → ℚ)
    (l_x a_rrs origScoresRRS : Fin n → List ℚ) (rRRS : RRSRealization n)
    (s : ℕ) (i : Fin n)
    (hchangedMS : argmaxIdx (rMS.pertScores s i) ≠ argmaxIdx (origScoresMS i))
    (hchangedRRS : argmaxIdx (rRRS.pertScores s i) ≠ argmaxIdx (origScoresRRS i)) :
    MaxSensitivity.perSampleValue similarity_func norm_numerator norm_denominator
        true a_batch origScoresMS rMS s i = EF.nan
    ∧ MaxSensitivity.perSampleValue similarity_func norm_numerator norm_denominator
        false a_batch origScoresMS rMS s i
      = divE (.fin (norm_numerator (similarity_func (a_batch i) (rMS.a_perturbed s i))))
          (.fin (norm_denominator (a_batch i)))
    ∧ RelativeRepresentationStability.perSampleEntry eps_min norm_e norm_l
        true l_x a_rrs origScoresRRS rRRS s i = EF.nan
    ∧ RelativeRepresentationStability.perSampleEntry eps_min norm_e norm_l
        false l_x a_rrs origScoresRRS rRRS s i
      = EF.fin (relative_representation_stability_objective eps_min norm_e norm_l
          (l_x i) (rRRS.l_xs s i) (a_rrs i) (rRRS.e_xs s i)) := by
  have hmemMS : i ∈ changed_prediction_indices true origScoresMS (rMS.pertScores s) := by
    simp [changed_prediction_indices, hchangedMS]
  have hmemRRS : i ∈ changed_prediction_indices true origScoresRRS (rRRS.pertScores s) := by
    simp [changed_prediction_indices, hchangedRRS]
  refine ⟨?_, ?_, ?_, ?_⟩
  · rw [MaxSensitivity.perSampleValue, if_pos hmemMS]
  · rw [MaxSensitivity.perSampleValue,
      if_neg (by simp [changed_prediction_indices])]
  · rw [RelativeRepresentationStability.perSampleEntry, if_pos hmemRRS]
  · rw [RelativeRepresentationStability.perSampleEntry,
      if_neg (by simp [changed_prediction_indices])]

/-- C4 witness: a concrete one-instance sample whose prediction flips
from class 0 to class 1 under perturbation; with masking enabled both
metrics record NaN for the sample, with masking disabled both record
the computed value. -/
theorem changed_prediction_masking_witness :
    argmaxIdx [(0 : ℚ), 1] ≠ argmaxIdx [(1 : ℚ), 0]
    ∧ MaxSensitivity.perSampleValue (fun u v => List.zipWith (fun x y => x - y) u v)
        l1norm l1norm true (fun _ : Fin 1 => [1]) (fun _ => [(1 : ℚ), 0])
        ⟨fun _ _ => [2], fun _ _ => [(0 : ℚ), 1]⟩ 0 0 = EF.nan
    ∧ RelativeRepresentationStability.perSampleEntry (1 / 1000000) l1norm l1norm
        true (fun _ : Fin 1 => [1]) (fun _ => [1]) (fun _ => [(1 : ℚ), 0])
        ⟨fun _ _ => [1], fun _ _ => [1], fun _ _ => [(0 : ℚ), 1]⟩ 0 0 = EF.nan := by
  have hne : argmaxIdx [(0 : ℚ), 1] ≠ argmaxIdx [(1 : ℚ), 0] := by
    norm_num [argmaxIdx, argmaxAux]
  have h := changed_prediction_masking
    (fun u v => List.zipWith (fun x y => x - y) u v) l1norm l1norm
    (fun _ : Fin 1 => [1]) (fun _ => [(1 : ℚ), 0])
    ⟨fun _ _ => [2], fun _ _ => [(0 : ℚ), 1]⟩
    (1 / 1000000) l1norm l1norm
    (fun _ : Fin 1 => [1]) (fun _ => [1]) (fun _ => [(1 : ℚ), 0])
    ⟨fun _ _ => [1], fun _ _ => [1], fun _ _ => [(0 : ℚ), 1]⟩
    0 0 hne hne
  exact ⟨hne, h.1, h.2.2.1⟩

end MaxSensitivityTheorems

end Quantus
